import Mathlib

/-
Verification of the glacier-rsync-encrypted archive pipeline.

The repository carries two copies of the backup utility:
  * src/src/backup_util.py (the installed package, per setup.py package_dir "src"),
  * src/glacier_rsync/backup_util.py (a legacy copy).
Definitions in namespace BSrc embed the installed copy, definitions in
namespace BGr embed the legacy copy.  Bytes are modeled as List Nat; hex
strings are modeled as lists of hex-digit values (nibbles), so binascii
unhexlify and hexlify become the nibble-pairing functions below.  SHA-256
itself is an external library call (hashlib), so the tree-hash functions are
parameterized by an arbitrary digest function sha: every theorem below holds
for every choice of sha, in particular for real SHA-256.
-/

/-- Model of binascii.unhexlify: a list of hex-digit values (nibbles) becomes
a list of byte values, two nibbles per byte. -/
def unhexlify : List Nat → List Nat
  | h1 :: h2 :: t => (16 * h1 + h2) :: unhexlify t
  | _ => []

/-- Model of binascii.hexlify: a list of byte values becomes a list of
hex-digit values (nibbles), two nibbles per byte. -/
def hexlify : List Nat → List Nat
  | b :: t => b / 16 :: b % 16 :: hexlify t
  | [] => []

/-- A concrete stand-in digest function used to evaluate the tree-hash code
on explicit inputs (the theorems about code structure are stated for every
digest function; this one only serves concrete evaluations). -/
def testHash (l : List Nat) : List Nat :=
  [l.length, l.sum]

namespace BSrc

/-- One level of the tree-hash fold of src/src/backup_util.py
(calculate_total_tree_hash, lines 402-411): for each adjacent pair the parent
is sha of the concatenation; an unpaired trailing element is passed to sha on
its own (combined = binary_hashes[i]; digest = sha256(combined)), i.e. it is
re-hashed rather than carried forward. -/
def pair_level (sha : List Nat → List Nat) : List (List Nat) → List (List Nat)
  | a :: b :: rest => sha (a ++ b) :: pair_level sha rest
  | [a] => [sha a]
  | [] => []

/-- The while-loop of calculate_total_tree_hash: repeat pair_level while more
than one digest remains.  The fuel argument bounds the number of iterations;
tree_hash_levels supplies fuel equal to the initial list length, which is
sufficient because every iteration strictly shrinks the list (theorem
bsrc_tree_hash_levels_short below shows the loop really reaches a list of at
most one digest, i.e. the while-condition is false on exit). -/
def tree_hash_loop (sha : List Nat → List Nat) : Nat → List (List Nat) → List (List Nat)
  | 0, l => l
  | fuel + 1, l => if 1 < l.length then tree_hash_loop sha fuel (pair_level sha l) else l

/-- The binary_hashes value after the while-loop of calculate_total_tree_hash. -/
def tree_hash_levels (sha : List Nat → List Nat) (l : List (List Nat)) : List (List Nat) :=
  tree_hash_loop sha l.length l

/-- src/src/backup_util.py calculate_total_tree_hash (lines 391-415): unhexlify
every incoming hex checksum, fold levels pairwise while more than one digest
remains, then return the hex encoding of the surviving digest, or the empty
string for an empty input list (the explicit `if binary_hashes:` check). -/
def calculate_total_tree_hash (sha : List Nat → List Nat)
    (hex_checksums : List (List Nat)) : List Nat :=
  match tree_hash_levels sha (hex_checksums.map unhexlify) with
  | h :: _ => hexlify h
  | [] => []

/-- src/src/backup_util.py backup, line 105: the part size used for a file is
the configured part size, unchanged; the file size is ignored (the legacy
decide_part_size adjustment does not exist in this copy). -/
def part_size_used (part_size : Nat) (_file_size : Nat) : Nat :=
  part_size

end BSrc

namespace BGr

/-- One level of the tree-hash fold of src/glacier_rsync/backup_util.py
(calculate_total_tree_hash, lines 281-290): adjacent pairs are unhexlified,
concatenated, hashed and re-hexlified; an unpaired trailing element is
appended unchanged (parent.append(tree[i])). -/
def pair_level (sha : List Nat → List Nat) : List (List Nat) → List (List Nat)
  | a :: b :: rest => hexlify (sha (unhexlify a ++ unhexlify b)) :: pair_level sha rest
  | [a] => [a]
  | [] => []

/-- The while-loop of the legacy calculate_total_tree_hash, with the same
fuel discipline as BSrc.tree_hash_loop. -/
def tree_hash_loop (sha : List Nat → List Nat) : Nat → List (List Nat) → List (List Nat)
  | 0, l => l
  | fuel + 1, l => if 1 < l.length then tree_hash_loop sha fuel (pair_level sha l) else l

/-- The tree value after the while-loop of the legacy calculate_total_tree_hash. -/
def tree_hash_levels (sha : List Nat → List Nat) (l : List (List Nat)) : List (List Nat) :=
  tree_hash_loop sha l.length l

/-- src/glacier_rsync/backup_util.py calculate_total_tree_hash (lines
273-291): fold levels while more than one checksum remains, then return
tree[0].  On an empty input tree[0] raises IndexError, modeled as none. -/
def calculate_total_tree_hash (sha : List Nat → List Nat)
    (checksums : List (List Nat)) : Option (List Nat) :=
  match tree_hash_levels sha checksums with
  | h :: _ => some h
  | [] => none

/-- The while-loop of src/glacier_rsync/backup_util.py decide_part_size
(lines 300-302): double part_size while file_size / part_size > 10000, with
exact arithmetic (file_size > 10000 * part_size).  The fuel argument bounds
the iterations; decide_part_size supplies fuel equal to file_size, which is
sufficient (theorem bgr_decide_part_size_ge below shows the loop condition
is false on the returned value whenever the starting part size is positive). -/
def decide_part_size_loop : Nat → Nat → Nat → Nat
  | 0, _, part_size => part_size
  | fuel + 1, file_size, part_size =>
    if 10000 * part_size < file_size then
      decide_part_size_loop fuel file_size (part_size * 2)
    else part_size

/-- src/glacier_rsync/backup_util.py decide_part_size (lines 293-303). -/
def decide_part_size (file_size : Nat) (part_size : Nat) : Nat :=
  decide_part_size_loop file_size file_size part_size

end BGr

/-- Ceiling division, used to state the 10000-part bound of the claims. -/
def ceilDiv (a b : Nat) : Nat :=
  (a + b - 1) / b

/-- A file-system stat result carried by environments below: size and mtime
(mtime modeled as Nat ticks; only equality of mtimes matters to the code). -/
structure Stats where
  size : Nat
  mtime : Nat
deriving DecidableEq

/-- The fields of a Glacier archive response that _mark_backed_up stores
(archive, lines 365-368 of src/src/backup_util.py). -/
structure Archive where
  archiveId : String
  location : String
  checksum : String
  timestamp : String
deriving DecidableEq

/-- One row of the sync_history table (see the create-table statement at
lines 55-58 of src/src/backup_util.py); the integer primary key is the list
position. -/
structure Record where
  path : String
  file_size : Nat
  mtime : Nat
  archive_id : String
  location : String
  checksum : String
  compression : String
  timestamp : String
deriving DecidableEq

/-- src/src/backup_util.py _get_stats (lines 190-205): os.stat is modeled by
an Option Stats argument; none models the FileNotFoundError / OSError case,
which the method catches, returning the sentinel (0, 0). -/
def get_stats (statResult : Option Stats) : Nat × Nat :=
  match statResult with
  | some s => (s.size, s.mtime)
  | none => (0, 0)

/-- The compression tag computed by _mark_backed_up (lines 369-371). -/
def compression_tag (encrypt compressFlag : Bool) : String :=
  (if encrypt then "encrypted" else "plain") ++ (if compressFlag then "+zstd" else "")

/-- src/src/backup_util.py _check_if_backed_up (lines 170-188): stat the file,
then SELECT rows whose path, file_size and mtime all match exactly; returns
(row exists, file_size, mtime). -/
def check_if_backed_up (db : List Record) (path : String) (statResult : Option Stats) :
    Bool × Nat × Nat :=
  let s := get_stats statResult
  (db.any (fun r => r.path == path && r.file_size == s.1 && r.mtime == s.2), s.1, s.2)

/-- src/src/backup_util.py _mark_backed_up (lines 355-389): return unchanged
on a missing archive, otherwise stat the file afresh (statResult is the stat
outcome at commit time) and INSERT one new row built from those fresh stats
and the archive fields. -/
def mark_backed_up (encrypt compressFlag : Bool) (db : List Record) (path : String)
    (archive : Option Archive) (statResult : Option Stats) : List Record :=
  match archive with
  | none => db
  | some a =>
    let s := get_stats statResult
    db ++ [⟨path, s.1, s.2, a.archiveId, a.location, a.checksum,
            compression_tag encrypt compressFlag, a.timestamp⟩]

/-- Outcome of one upload_multipart_part call, as seen by the retry loop of
_backup (lines 294-318 of src/src/backup_util.py): a checksum on success, a
botocore ClientError, or any other exception. -/
inductive PartResult where
  | ok (checksum : List Nat)
  | clientError
  | otherError
deriving DecidableEq

/-- Observable outcome of the retry loop for one part: the collected checksum
(none when the part failed), the time.sleep delays performed, the number of
upload_multipart_part calls made, and whether _abort_multipart_upload was
invoked. -/
structure PartUpload where
  checksum : Option (List Nat)
  sleeps : List Nat
  calls : Nat
  aborted : Bool
deriving DecidableEq

/-- The body of `for retry in range(upload_part_retries)` (lines 295-318):
on success break with the checksum; on ClientError sleep 2 ^ retry and retry
while retry < retries - 1, otherwise abort; on any other exception abort
immediately. -/
def upload_part_loop (outcome : Nat → PartResult) (retries : Nat) : List Nat → PartUpload
  | [] => ⟨none, [], 0, false⟩
  | retry :: rest =>
    match outcome retry with
    | .ok c => ⟨some c, [], 1, false⟩
    | .clientError =>
      if retry < retries - 1 then
        let r := upload_part_loop outcome retries rest
        ⟨r.checksum, 2 ^ retry :: r.sleeps, r.calls + 1, r.aborted⟩
      else ⟨none, [], 1, true⟩
    | .otherError => ⟨none, [], 1, true⟩

/-- One part upload with upload_part_retries = 3 (line 294). -/
def upload_part (outcome : Nat → PartResult) : PartUpload :=
  upload_part_loop outcome 3 (List.range 3)

/-- Observable outcome of _backup for a whole file: the ordered per-part
checksums when every part succeeded (none on failure, i.e. _backup returned
None), all sleep delays, the number of abort calls, and the number of
upload_multipart_part calls. -/
structure BackupRun where
  checksums : Option (List (List Nat))
  sleeps : List Nat
  aborts : Nat
  calls : Nat
deriving DecidableEq

/-- The chunk loop of _backup (lines 286-318): parts are uploaded in order;
a failed part aborts the session exactly once and makes the whole upload
return None, leaving later parts unattempted.  The service behavior is the
outcome function (part index, attempt index within the part). -/
def glacier_backup_loop (outcome : Nat → Nat → PartResult) : Nat → List (List Nat) → BackupRun
  | _, [] => ⟨some [], [], 0, 0⟩
  | i, _chunk :: rest =>
    let r := upload_part (outcome i)
    match r.checksum with
    | some c =>
      let rr := glacier_backup_loop outcome (i + 1) rest
      ⟨rr.checksums.map (fun cs => c :: cs), r.sleeps ++ rr.sleeps, rr.aborts, r.calls + rr.calls⟩
    | none => ⟨none, r.sleeps, 1, r.calls⟩

/-- src/src/backup_util.py _backup (lines 257-337), restricted to the part
upload phase: the file content is already split into chunks of part_size. -/
def glacier_backup (outcome : Nat → Nat → PartResult) (chunks : List (List Nat)) : BackupRun :=
  glacier_backup_loop outcome 0 chunks

/-- Per-file environment for the orchestrator model: the outcomes of the
external calls made while processing one file.  scanStat is the os.stat
outcome at the _check_if_backed_up call, commitStat the one at the
_mark_backed_up call (the file may change in between).  openResult none
models open() raising FileNotFoundError or PermissionError; encryptResult
none models fernet.encrypt raising; zstdAvailable false models ImportError
on `import zstandard`; compressResult none models cctx.compress raising;
uploadResult is the value returned by _backup for this file; stopDuring true
means stop() is invoked while this file is being processed. -/
structure FileEnv where
  scanStat : Option Stats
  commitStat : Option Stats
  openResult : Option (List Nat)
  encryptResult : Option (List Nat)
  zstdAvailable : Bool
  compressResult : Option (List Nat)
  uploadResult : Option Archive
  stopDuring : Bool

/-- Outcome of _compress (src/src/backup_util.py lines 207-255): success with
the transformed bytes, failure meaning the method returned (None, None) after
logging (a contained per-file error), or raised meaning a ValueError escaped
the method. -/
inductive TransformResult where
  | success (data : List Nat)
  | failure
  | raised (msg : String)
deriving DecidableEq

/-- src/src/backup_util.py _compress (lines 207-255): open the file (errors
contained), optionally encrypt (errors contained), then optionally compress:
ImportError on zstandard raises ValueError out of the method (lines 245-248),
while any other compression error is contained. -/
def compress_file (encrypt compressFlag : Bool) (e : FileEnv) : TransformResult :=
  match e.openResult with
  | none => .failure
  | some content =>
    match if encrypt then e.encryptResult else some content with
    | none => .failure
    | some data =>
      if compressFlag then
        if e.zstdAvailable then
          match e.compressResult with
          | some cd => .success cd
          | none => .failure
        else .raised "Cannot import zstd. Please install `zstandard` package!"
      else .success data

/-- The per-file body of the backup loop (src/src/backup_util.py lines
101-115): dedup check, then _compress, then _backup, then _mark_backed_up on
success; a ValueError raised by _compress is not caught anywhere in backup,
so it is propagated as an error value. -/
def backup_step (encrypt compressFlag : Bool) (e : FileEnv) (db : List Record)
    (f : String) : Except String (List Record) :=
  if (check_if_backed_up db f e.scanStat).1 then .ok db
  else
    match compress_file encrypt compressFlag e with
    | .raised m => .error m
    | .failure => .ok db
    | .success _ =>
      match e.uploadResult with
      | some a => .ok (mark_backed_up encrypt compressFlag db f (some a) e.commitStat)
      | none => .ok db

/-- The file loop of src/src/backup_util.py backup (lines 94-117): the
continue_running flag is consulted only at the top of each iteration; stop()
arriving while file f is processed (envOf f stopDuring) clears the flag, so
it takes effect at the next iteration.  The result is the list of files the
loop entered together with the final ledger, or the message of an escaped
exception. -/
def backup_run (encrypt compressFlag : Bool) (envOf : String → FileEnv)
    (cont : Bool) (db : List Record) :
    List String → Except String (List String × List Record)
  | [] => .ok ([], db)
  | f :: rest =>
    if cont then
      match backup_step encrypt compressFlag (envOf f) db f with
      | .error m => .error m
      | .ok db2 =>
        match backup_run encrypt compressFlag envOf (cont && !(envOf f).stopDuring) db2 rest with
        | .error m => .error m
        | .ok (ps, dbf) => .ok (f :: ps, dbf)
    else .ok ([], db)

/-- src/src/file_cache.py FileCache with compression disabled over a BytesIO
source: the reader is the BytesIO object itself, modeled by its contents and
current position. -/
structure FileCacheRaw where
  data : List Nat
  pos : Nat
deriving DecidableEq

/-- FileCache.read (lines 21-46) in the uncompressed BytesIO case: when
tell() has reached the end of the buffer the method returns None, otherwise
it returns the next min(n, remaining) bytes and advances the position. -/
def FileCacheRaw.read (st : FileCacheRaw) (n : Nat) : Option (List Nat) × FileCacheRaw :=
  if st.data.length ≤ st.pos then (none, st)
  else (some ((st.data.drop st.pos).take n), ⟨st.data, min (st.pos + n) st.data.length⟩)

/-- src/src/file_cache.py FileCache with compression disabled over a plain
open file object: readable() is True for an open file, so the None branch of
read is never taken and read(n) is a direct passthrough; at end of file the
passthrough returns empty bytes, on every call. -/
structure FileCacheFile where
  data : List Nat
  pos : Nat
deriving DecidableEq

/-- FileCache.read (lines 21-46) in the uncompressed plain-file case. -/
def FileCacheFile.read (st : FileCacheFile) (n : Nat) : Option (List Nat) × FileCacheFile :=
  (some ((st.data.drop st.pos).take n), ⟨st.data, min (st.pos + n) st.data.length⟩)

/-- src/src/file_cache.py FileCache with compression enabled: chunks is the
remaining output of the zstandard read_to_iter iterator, next_chunk the
accumulated buffer; next_chunk none is the exhausted state set by the
StopIteration handler. -/
structure FileCacheZst where
  chunks : List (List Nat)
  next_chunk : Option (List Nat)
deriving DecidableEq

/-- The `while len(self.next_chunk) < n: self.grow_chunk()` loop of
FileCache.read (lines 38-39): either the buffer reaches n bytes with some
iterator output left (inl), or the iterator is exhausted mid-loop and
StopIteration carries out the buffer accumulated so far (inr). -/
def grow_until (n : Nat) (buf : List Nat) :
    List (List Nat) → (List Nat × List (List Nat)) ⊕ List Nat
  | [] => if buf.length < n then Sum.inr buf else Sum.inl (buf, [])
  | c :: rest =>
    if buf.length < n then grow_until n (buf ++ c) rest
    else Sum.inl (buf, c :: rest)

/-- FileCache.read (lines 21-46) in the compressed case: an exhausted reader
returns None immediately; otherwise grow the buffer to n bytes and slice off
the first n, or, when the iterator ends first, return the whole remaining
buffer once and mark the reader exhausted (next_chunk = None). -/
def FileCacheZst.read (st : FileCacheZst) (n : Nat) : Option (List Nat) × FileCacheZst :=
  match st.next_chunk with
  | none => (none, st)
  | some buf =>
    match grow_until n buf st.chunks with
    | Sum.inl (buf2, rest) => (some (buf2.take n), ⟨rest, some (buf2.drop n)⟩)
    | Sum.inr buf2 => (some buf2, ⟨[], none⟩)

/-- Each pair_level halves the list length, rounding up (installed copy). -/
theorem bsrc_pair_level_length (sha : List Nat → List Nat) :
    ∀ l, (BSrc.pair_level sha l).length = (l.length + 1) / 2
  | [] => rfl
  | [_] => by norm_num [BSrc.pair_level]
  | _ :: _ :: rest => by
    simp [BSrc.pair_level, bsrc_pair_level_length sha rest]
    omega

/-- Each pair_level halves the list length, rounding up (legacy copy). -/
theorem bgr_pair_level_length (sha : List Nat → List Nat) :
    ∀ l, (BGr.pair_level sha l).length = (l.length + 1) / 2
  | [] => rfl
  | [_] => by norm_num [BGr.pair_level]
  | _ :: _ :: rest => by
    simp [BGr.pair_level, bgr_pair_level_length sha rest]
    omega

/-- Fuel adequacy for the installed while-loop model: with fuel at least the
list length the loop runs until at most one digest remains, exactly as the
source while len(binary_hashes) > 1 loop. -/
theorem bsrc_tree_hash_loop_short (sha : List Nat → List Nat) :
    ∀ fuel l, l.length ≤ fuel → (BSrc.tree_hash_loop sha fuel l).length ≤ 1
  | 0, l, h => by
    simp [BSrc.tree_hash_loop]
    omega
  | fuel + 1, l, h => by
    by_cases h1 : 1 < l.length
    · have hp := bsrc_pair_level_length sha l
      have : (BSrc.pair_level sha l).length ≤ fuel := by omega
      simpa [BSrc.tree_hash_loop, h1] using
        bsrc_tree_hash_loop_short sha fuel (BSrc.pair_level sha l) this
    · simp [BSrc.tree_hash_loop, h1]
      omega

/-- The installed tree-hash loop terminates with at most one digest. -/
theorem bsrc_tree_hash_levels_short (sha : List Nat → List Nat) (l : List (List Nat)) :
    (BSrc.tree_hash_levels sha l).length ≤ 1 :=
  bsrc_tree_hash_loop_short sha l.length l le_rfl

/-- Fuel adequacy for the legacy while-loop model. -/
theorem bgr_tree_hash_loop_short (sha : List Nat → List Nat) :
    ∀ fuel l, l.length ≤ fuel → (BGr.tree_hash_loop sha fuel l).length ≤ 1
  | 0, l, h => by
    simp [BGr.tree_hash_loop]
    omega
  | fuel + 1, l, h => by
    by_cases h1 : 1 < l.length
    · have hp := bgr_pair_level_length sha l
      have : (BGr.pair_level sha l).length ≤ fuel := by omega
      simpa [BGr.tree_hash_loop, h1] using
        bgr_tree_hash_loop_short sha fuel (BGr.pair_level sha l) this
    · simp [BGr.tree_hash_loop, h1]
      omega

/-- The legacy tree-hash loop terminates with at most one checksum. -/
theorem bgr_tree_hash_levels_short (sha : List Nat → List Nat) (l : List (List Nat)) :
    (BGr.tree_hash_levels sha l).length ≤ 1 :=
  bgr_tree_hash_loop_short sha l.length l le_rfl

/-- Fuel adequacy for the decide_part_size loop: if the doubling can reach a
sufficient part size within the given fuel, the returned part size satisfies
the loop exit condition file_size less-or-equal 10000 * part_size. -/
theorem bgr_decide_part_size_loop_ge :
    ∀ fuel file_size part_size, 0 < part_size →
      file_size ≤ 10000 * part_size * 2 ^ fuel →
      file_size ≤ 10000 * BGr.decide_part_size_loop fuel file_size part_size
  | 0, fs, p, _, h => by simpa [BGr.decide_part_size_loop] using h
  | fuel + 1, fs, p, hp, h => by
    by_cases hc : 10000 * p < fs
    · have h2 : fs ≤ 10000 * (p * 2) * 2 ^ fuel := by
        have he : 10000 * (p * 2) * 2 ^ fuel = 10000 * p * 2 ^ (fuel + 1) := by ring
        rw [he]
        exact h
      simpa [BGr.decide_part_size_loop, hc] using
        bgr_decide_part_size_loop_ge fuel fs (p * 2) (by omega) h2
    · simp [BGr.decide_part_size_loop, hc]
      omega

/-- With a positive configured part size, the legacy decide_part_size always
exits its while-loop with file_size less-or-equal 10000 * part_size, i.e. the
fuel supplied in the model is sufficient. -/
theorem bgr_decide_part_size_ge (file_size part_size : Nat) (hp : 0 < part_size) :
    file_size ≤ 10000 * BGr.decide_part_size file_size part_size := by
  refine bgr_decide_part_size_loop_ge file_size file_size part_size hp ?_
  have h2 : file_size < 2 ^ file_size := Nat.lt_two_pow file_size
  have h3 : 2 ^ file_size ≤ 10000 * part_size * 2 ^ file_size := by
    have h4 : 1 ≤ 10000 * part_size := by omega
    calc 2 ^ file_size = 1 * 2 ^ file_size := by ring
    _ ≤ 10000 * part_size * 2 ^ file_size := Nat.mul_le_mul_right _ h4
  omega

/-- Claim C1: the claim states that the tree-hash fold carries an unpaired
trailing digest forward unchanged, so that FoldChecksums([a, b, c]) equals
FoldChecksums([hex(SHA256(raw(a) ++ raw(b))), c]).  The installed
calculate_total_tree_hash (src/src/backup_util.py) instead re-hashes the
unpaired digest, so this identity fails on it at the concrete three-digest
input below (first two conjuncts; the single-digest identity does hold),
while the legacy copy (src/glacier_rsync/backup_util.py) satisfies the
claimed identity at the same input (last conjunct).  This evaluates the code
at the failing input of the code_bug verdict for C1. -/
theorem tree_hash_rehashes_odd_leftover :
    BSrc.calculate_total_tree_hash testHash [[0, 1]] = [0, 1] ∧
    BSrc.calculate_total_tree_hash testHash [[0, 1], [0, 2], [0, 3]]
      ≠ BSrc.calculate_total_tree_hash testHash
          [hexlify (testHash (unhexlify [0, 1] ++ unhexlify [0, 2])), [0, 3]] ∧
    BGr.calculate_total_tree_hash testHash [[0, 1], [0, 2], [0, 3]]
      = BGr.calculate_total_tree_hash testHash
          [hexlify (testHash (unhexlify [0, 1] ++ unhexlify [0, 2])), [0, 3]] := by
  decide

/-- Claim C3: the claim states that the part size used for a file is the
smallest configuredBase * 2 ^ k keeping the part count at most 10000.  The
installed backup() (src/src/backup_util.py line 105) uses the configured base
unchanged: with configuredBase 1 and fileSize 10001 it uses part size 1,
giving 10001 parts, violating the bound, while the legacy decide_part_size
(the ChoosePartSize of the spec) returns 2, which satisfies the bound.  This
evaluates the code at the failing input of the code_bug verdict for C3. -/
theorem part_size_not_adjusted_in_backup :
    BSrc.part_size_used 1 10001 = 1 ∧
    10000 < ceilDiv 10001 (BSrc.part_size_used 1 10001) ∧
    BGr.decide_part_size 10001 1 = 2 ∧
    ceilDiv 10001 (BGr.decide_part_size 10001 1) ≤ 10000 := by
  decide

/-- Claim C8: the installed calculate_total_tree_hash applied to an empty
list of part checksums is explicitly handled (the `if binary_hashes:` check
at lines 413-415 of src/src/backup_util.py) and returns the empty string
without raising, for every digest function. -/
theorem empty_checksum_list_explicitly_handled (sha : List Nat → List Nat) :
    BSrc.calculate_total_tree_hash sha [] = [] :=
  rfl

/-- Claim C2: against a service whose UploadPart always fails with a
retryable ClientError, the installed _backup retries the same part 3 attempts
in total with doubling backoff delays (sleeps of 1 then 2 seconds), issues
exactly one abort call, makes the whole upload return failure, and commits
nothing to the ledger: _mark_backed_up with a missing archive leaves the
table unchanged (and backup() does not even call it), and the loop body with
a failed upload returns the ledger unchanged. -/
theorem upload_retry_exhaustion_aborts_once (outcome : Nat → Nat → PartResult)
    (c : List Nat) (rest : List (List Nat))
    (h : ∀ i a, outcome i a = PartResult.clientError) :
    glacier_backup outcome (c :: rest) = ⟨none, [1, 2], 1, 3⟩ ∧
    (∀ (encrypt compressFlag : Bool) (db : List Record) (path : String) (st : Option Stats),
      mark_backed_up encrypt compressFlag db path none st = db) ∧
    (∀ (encrypt : Bool) (db : List Record) (path : String) (st : Option Stats)
        (content : List Nat),
      backup_step encrypt false ⟨st, st, some content, some content, true, some content,
        none, false⟩ db path = .ok db) := by
  refine ⟨?_, ?_, ?_⟩
  · have e0 := h 0 0
    have e1 := h 0 1
    have e2 := h 0 2
    have hr : List.range 3 = [0, 1, 2] := rfl
    simp [glacier_backup, glacier_backup_loop, upload_part, hr, upload_part_loop, e0, e1, e2]
  · intro enc cmp db path st
    rfl
  · intro enc db path st content
    by_cases hb : (check_if_backed_up db path st).1
    · simp [backup_step, hb]
    · cases enc <;> simp [backup_step, hb, compress_file]

/-- Witness for upload_retry_exhaustion_aborts_once at the always-failing
stub service and a one-chunk file. -/
theorem upload_retry_exhaustion_aborts_once_witness :
    (∀ i a, (fun (_ _ : Nat) => PartResult.clientError) i a = PartResult.clientError) ∧
    glacier_backup (fun (_ _ : Nat) => PartResult.clientError) [[0]] = ⟨none, [1, 2], 1, 3⟩ :=
  ⟨fun _ _ => rfl,
    (upload_retry_exhaustion_aborts_once (fun (_ _ : Nat) => PartResult.clientError) [0] []
      (fun _ _ => rfl)).1⟩

/-- Claim C4 (amended): the FileIdentity stored by _mark_backed_up is the
one re-read by _get_stats at commit time (lines 373-381 of
src/src/backup_util.py), not the scan-time identity, and a subsequent dedup
check against the commit-time stats finds the new row, i.e. a file change
between scan and upload completion is recorded as already backed up. -/
theorem committed_identity_is_commit_time (encrypt compressFlag : Bool)
    (db : List Record) (path : String) (a : Archive) (commitStat : Option Stats) :
    mark_backed_up encrypt compressFlag db path (some a) commitStat
      = db ++ [⟨path, (get_stats commitStat).1, (get_stats commitStat).2, a.archiveId,
          a.location, a.checksum, compression_tag encrypt compressFlag, a.timestamp⟩] ∧
    (check_if_backed_up (mark_backed_up encrypt compressFlag db path (some a) commitStat)
        path commitStat).1 = true := by
  constructor
  · rfl
  · simp [check_if_backed_up, mark_backed_up]

/-- Counterexample to claim C4 as stated: a file whose scan-time stats were
size 1, mtime 10 and which changed to size 2, mtime 20 before the upload
completed is committed with identity (2, 20), not the transform-start
identity (1, 10); and the subsequent scan, seeing the changed file with
stats (2, 20), finds the row and treats the change as already backed up,
contrary to the claim. -/
theorem committed_identity_not_scan_time :
    (mark_backed_up false false [] "f" (some ⟨"id", "loc", "ck", "ts"⟩) (some ⟨2, 20⟩)).map
        (fun r => (r.file_size, r.mtime)) ≠ [(1, 10)] ∧
    (check_if_backed_up
        (mark_backed_up false false [] "f" (some ⟨"id", "loc", "ck", "ts"⟩) (some ⟨2, 20⟩))
        "f" (some ⟨2, 20⟩)).1 = true := by
  decide

/-- Claim C10: when os.stat fails (file vanished or unreadable), _get_stats
catches the error and returns the sentinel (0, 0); the dedup check then
queries for rows with file_size 0 and mtime 0 and reports those stats, and a
subsequent commit inserts a row with file_size 0 and mtime 0. -/
theorem stat_failure_sentinel_identity (db : List Record) (path : String) (a : Archive)
    (encrypt compressFlag : Bool) :
    get_stats none = (0, 0) ∧
    check_if_backed_up db path none
      = (db.any (fun r => r.path == path && r.file_size == 0 && r.mtime == 0), 0, 0) ∧
    mark_backed_up encrypt compressFlag db path (some a) none
      = db ++ [⟨path, 0, 0, a.archiveId, a.location, a.checksum,
          compression_tag encrypt compressFlag, a.timestamp⟩] :=
  ⟨rfl, rfl, rfl⟩

/-- Claim C7: processing the same unchanged file twice (same path, size and
mtime at scan and commit, upload succeeding) inserts exactly one new row on
the first run, and the second run finds the row and skips the file, adding
nothing; and the dedup check is true exactly when a row matches path,
file_size and mtime all exactly. -/
theorem dedup_skip_idempotent (encrypt compressFlag : Bool) (db : List Record)
    (path : String) (s : Stats) (a : Archive) (content : List Nat)
    (h : (check_if_backed_up db path (some s)).1 = false) :
    backup_step encrypt compressFlag
        ⟨some s, some s, some content, some content, true, some content, some a, false⟩
        db path
      = Except.ok (db ++ [(⟨path, s.size, s.mtime, a.archiveId, a.location, a.checksum,
          compression_tag encrypt compressFlag, a.timestamp⟩ : Record)]) ∧
    (db ++ [(⟨path, s.size, s.mtime, a.archiveId, a.location, a.checksum,
        compression_tag encrypt compressFlag, a.timestamp⟩ : Record)]).length
      = db.length + 1 ∧
    backup_step encrypt compressFlag
        ⟨some s, some s, some content, some content, true, some content, some a, false⟩
        (db ++ [(⟨path, s.size, s.mtime, a.archiveId, a.location, a.checksum,
          compression_tag encrypt compressFlag, a.timestamp⟩ : Record)]) path
      = Except.ok (db ++ [(⟨path, s.size, s.mtime, a.archiveId, a.location, a.checksum,
          compression_tag encrypt compressFlag, a.timestamp⟩ : Record)]) ∧
    ∀ (db2 : List Record) (p : String) (st : Option Stats),
      (check_if_backed_up db2 p st).1 = true ↔
        ∃ r ∈ db2, r.path = p ∧ r.file_size = (get_stats st).1 ∧ r.mtime = (get_stats st).2 := by
  refine ⟨?_, by simp, ?_, ?_⟩
  · cases encrypt <;> cases compressFlag <;>
      simp [backup_step, h, compress_file, mark_backed_up, get_stats]
  · simp [backup_step, check_if_backed_up, get_stats]
  · intro db2 p st
    simp [check_if_backed_up, List.any_eq_true, Bool.and_eq_true, beq_iff_eq, and_assoc]

/-- Witness for dedup_skip_idempotent: a fresh ledger, one file, one
successful upload; the first run inserts one row and the second run skips. -/
theorem dedup_skip_idempotent_witness :
    (check_if_backed_up [] "a" (some ⟨3, 7⟩)).1 = false ∧
    backup_step false false
        ⟨some ⟨3, 7⟩, some ⟨3, 7⟩, some [1], some [1], true, some [1],
          some ⟨"id", "loc", "ck", "ts"⟩, false⟩ [] "a"
      = Except.ok ([] ++ [(⟨"a", 3, 7, "id", "loc", "ck", compression_tag false false,
          "ts"⟩ : Record)]) ∧
    backup_step false false
        ⟨some ⟨3, 7⟩, some ⟨3, 7⟩, some [1], some [1], true, some [1],
          some ⟨"id", "loc", "ck", "ts"⟩, false⟩
        ([] ++ [(⟨"a", 3, 7, "id", "loc", "ck", compression_tag false false,
          "ts"⟩ : Record)]) "a"
      = Except.ok ([] ++ [(⟨"a", 3, 7, "id", "loc", "ck", compression_tag false false,
          "ts"⟩ : Record)]) :=
  ⟨by decide,
    (dedup_skip_idempotent false false [] "a" ⟨3, 7⟩ ⟨"id", "loc", "ck", "ts"⟩ [1]
      (by decide)).1,
    (dedup_skip_idempotent false false [] "a" ⟨3, 7⟩ ⟨"id", "loc", "ck", "ts"⟩ [1]
      (by decide)).2.2.1⟩

/-- _compress can raise (rather than return a contained failure) only in the
compression branch when the zstandard import fails. -/
theorem compress_raised_means_missing_codec (encrypt compressFlag : Bool)
    (e : FileEnv) (m : String)
    (h : compress_file encrypt compressFlag e = TransformResult.raised m) :
    compressFlag = true ∧ e.zstdAvailable = false := by
  cases ho : e.openResult with
  | none => simp [compress_file, ho] at h
  | some content =>
    cases encrypt with
    | false =>
      cases compressFlag with
      | false => simp [compress_file, ho] at h
      | true =>
        cases hz : e.zstdAvailable with
        | false => exact ⟨rfl, rfl⟩
        | true => cases hc : e.compressResult <;> simp [compress_file, ho, hz, hc] at h
    | true =>
      cases hE : e.encryptResult with
      | none => simp [compress_file, ho, hE] at h
      | some data =>
        cases compressFlag with
        | false => simp [compress_file, ho, hE] at h
        | true =>
          cases hz : e.zstdAvailable with
          | false => exact ⟨rfl, rfl⟩
          | true =>
            cases hc : e.compressResult <;> simp [compress_file, ho, hE, hz, hc] at h

/-- The loop body propagates an error value only when _compress raised. -/
theorem backup_step_error_means_raised (encrypt compressFlag : Bool) (e : FileEnv)
    (db : List Record) (f : String) (m : String)
    (h : backup_step encrypt compressFlag e db f = .error m) :
    compress_file encrypt compressFlag e = TransformResult.raised m := by
  by_cases hb : (check_if_backed_up db f e.scanStat).1
  · simp [backup_step, hb] at h
  · cases hc : compress_file encrypt compressFlag e with
    | raised m2 =>
      simp [backup_step, hb, hc] at h
      rw [h]
    | failure => simp [backup_step, hb, hc] at h
    | success d =>
      cases hu : e.uploadResult <;> simp [backup_step, hb, hc, hu] at h

/-- Claim C5 (amended): as long as the zstandard codec is importable, every
per-file error (unreadable file, encryption exception, compression
exception, upload failure) is contained by the loop body and the batch runs
to completion with an ok result; the missing-codec case is the exception
established by missing_codec_error_escapes_run. -/
theorem backup_contains_per_file_errors (encrypt compressFlag : Bool)
    (envOf : String → FileEnv)
    (h : ∀ f, (envOf f).zstdAvailable = true) :
    ∀ (files : List String) (cont : Bool) (db : List Record),
      ∃ res, backup_run encrypt compressFlag envOf cont db files = .ok res := by
  intro files
  induction files with
  | nil => exact fun cont db => ⟨([], db), rfl⟩
  | cons f rest ih =>
    intro cont db
    cases cont with
    | false => exact ⟨([], db), rfl⟩
    | true =>
      cases hs : backup_step encrypt compressFlag (envOf f) db f with
      | error m =>
        exact absurd
          (compress_raised_means_missing_codec encrypt compressFlag (envOf f) m
            (backup_step_error_means_raised encrypt compressFlag (envOf f) db f m hs)).2
          (by simp [h f])
      | ok db2 =>
        obtain ⟨⟨ps, dbf⟩, hr⟩ := ih (!(envOf f).stopDuring) db2
        exact ⟨(f :: ps, dbf), by simp [backup_run, hs, hr]⟩

/-- Counterexample to claim C5 as stated: with compression requested and the
zstandard package missing, the ValueError raised by _compress escapes the
backup loop, so the run aborts with the error instead of reporting the file
and continuing: the second file is never processed. -/
theorem missing_codec_error_escapes_run :
    backup_run false true
        (fun _ => ⟨some ⟨1, 1⟩, some ⟨1, 1⟩, some [1], some [1], false, some [1],
          some ⟨"id", "loc", "ck", "ts"⟩, false⟩)
        true [] ["f1", "f2"]
      = .error "Cannot import zstd. Please install `zstandard` package!" := by
  rfl

/-- Witness for backup_contains_per_file_errors: an environment where every
file fails to open (a contained per-file error) still yields an ok batch
over two files. -/
theorem backup_contains_per_file_errors_witness :
    (∀ f, ((fun (_ : String) => (⟨some ⟨1, 1⟩, some ⟨1, 1⟩, none, some [1], true, some [1],
        some ⟨"id", "loc", "ck", "ts"⟩, false⟩ : FileEnv)) f).zstdAvailable = true) ∧
    ∃ res, backup_run false true
        (fun (_ : String) => (⟨some ⟨1, 1⟩, some ⟨1, 1⟩, none, some [1], true, some [1],
          some ⟨"id", "loc", "ck", "ts"⟩, false⟩ : FileEnv))
        true [] ["a", "b"] = .ok res :=
  ⟨fun _ => rfl,
    backup_contains_per_file_errors false true
      (fun (_ : String) => (⟨some ⟨1, 1⟩, some ⟨1, 1⟩, none, some [1], true, some [1],
        some ⟨"id", "loc", "ck", "ts"⟩, false⟩ : FileEnv))
      (fun _ => rfl) ["a", "b"] true []⟩

/-- With the continue_running flag cleared the loop exits before processing
any further file, leaving the ledger untouched. -/
theorem backup_run_stopped (encrypt compressFlag : Bool) (envOf : String → FileEnv)
    (db : List Record) :
    ∀ files, backup_run encrypt compressFlag envOf false db files = .ok ([], db)
  | [] => rfl
  | _ :: _ => by simp [backup_run]

/-- Claim C9: the continue_running flag is consulted only between files.  If
stop() arrives while file f is being processed (and not earlier), the run on
pre ++ f :: post is identical to the run on pre ++ [f]: file f is processed
to completion (committed on success inside backup_step) and the files after
f are never entered. -/
theorem stop_observed_between_files_only (encrypt compressFlag : Bool)
    (envOf : String → FileEnv) (f : String) (post : List String)
    (h2 : (envOf f).stopDuring = true) :
    ∀ (pre : List String) (db : List Record),
      (∀ g ∈ pre, (envOf g).stopDuring = false) →
      backup_run encrypt compressFlag envOf true db (pre ++ f :: post)
        = backup_run encrypt compressFlag envOf true db (pre ++ [f]) := by
  intro pre
  induction pre with
  | nil =>
    intro db _
    simp only [List.nil_append]
    cases hs : backup_step encrypt compressFlag (envOf f) db f with
    | error m => simp [backup_run, hs]
    | ok db2 => simp [backup_run, hs, h2, backup_run_stopped]
  | cons g pre ih =>
    intro db h1
    have hg : (envOf g).stopDuring = false := h1 g (by simp)
    cases hs : backup_step encrypt compressFlag (envOf g) db g with
    | error m => simp [backup_run, hs]
    | ok db2 =>
      have hrec := ih db2 (fun x hx => h1 x (by simp [hx]))
      simp [backup_run, hs, hg, hrec]

/-- Witness for stop_observed_between_files_only: five files, stop requested
while the third is in flight; the run equals the run on the first three
files, so the third completes and the last two are unprocessed. -/
theorem stop_observed_between_files_only_witness :
    ((fun (g : String) => (⟨some ⟨1, 1⟩, some ⟨1, 1⟩, some [1], some [1], true, some [1],
        some ⟨"id", "loc", "ck", "ts"⟩, g == "f3"⟩ : FileEnv)) "f3").stopDuring = true ∧
    (∀ g ∈ ["f1", "f2"],
      ((fun (g2 : String) => (⟨some ⟨1, 1⟩, some ⟨1, 1⟩, some [1], some [1], true, some [1],
          some ⟨"id", "loc", "ck", "ts"⟩, g2 == "f3"⟩ : FileEnv)) g).stopDuring = false) ∧
    backup_run false false
        (fun (g : String) => (⟨some ⟨1, 1⟩, some ⟨1, 1⟩, some [1], some [1], true, some [1],
          some ⟨"id", "loc", "ck", "ts"⟩, g == "f3"⟩ : FileEnv))
        true [] (["f1", "f2"] ++ "f3" :: ["f4", "f5"])
      = backup_run false false
          (fun (g : String) => (⟨some ⟨1, 1⟩, some ⟨1, 1⟩, some [1], some [1], true, some [1],
            some ⟨"id", "loc", "ck", "ts"⟩, g == "f3"⟩ : FileEnv))
          true [] (["f1", "f2"] ++ ["f3"]) :=
  ⟨rfl, by decide,
    stop_observed_between_files_only false false
      (fun (g : String) => (⟨some ⟨1, 1⟩, some ⟨1, 1⟩, some [1], some [1], true, some [1],
        some ⟨"id", "loc", "ck", "ts"⟩, g == "f3"⟩ : FileEnv))
      "f3" ["f4", "f5"] rfl ["f1", "f2"] [] (by decide)⟩

/-- An exhausted compressed reader (next_chunk None) returns the marker and
leaves its state untouched. -/
theorem zst_read_exhausted (st : FileCacheZst) (n : Nat) (h : st.next_chunk = none) :
    FileCacheZst.read st n = (none, st) := by
  simp [FileCacheZst.read, h]

/-- A compressed read can return the None marker only from the exhausted
state. -/
theorem zst_read_none_state (st : FileCacheZst) (n : Nat)
    (h : (FileCacheZst.read st n).1 = none) : st.next_chunk = none := by
  cases hc : st.next_chunk with
  | none => rfl
  | some buf =>
    exfalso
    cases hg : grow_until n buf st.chunks with
    | inl p =>
      obtain ⟨b, r⟩ := p
      simp [FileCacheZst.read, hc, hg] at h
    | inr b => simp [FileCacheZst.read, hc, hg] at h

/-- Claim C6 (amended): for the compressed reader, once read has returned
the exhaustion marker (None) every further read returns the marker, and the
call that consumes the StopIteration (leaving next_chunk None) is followed
only by markers, so the final buffered, possibly empty, result is returned
at most once; the uncompressed BytesIO reader returns the marker directly at
end of data and keeps returning it; the uncompressed plain-file reader
returns empty bytes at end of data (on every call, see
reader_empty_result_not_once).  All reads are total functions of the state:
no call raises. -/
theorem reader_exhaustion_marker_stable :
    (∀ (st : FileCacheZst) (n m : Nat), (FileCacheZst.read st n).1 = none →
      (FileCacheZst.read (FileCacheZst.read st n).2 m).1 = none) ∧
    (∀ (st : FileCacheZst) (n m : Nat), ((FileCacheZst.read st n).2).next_chunk = none →
      (FileCacheZst.read (FileCacheZst.read st n).2 m).1 = none) ∧
    (∀ (st : FileCacheRaw) (n m : Nat), (FileCacheRaw.read st n).1 = none →
      (FileCacheRaw.read (FileCacheRaw.read st n).2 m).1 = none) ∧
    (∀ (st : FileCacheRaw) (n : Nat), st.data.length ≤ st.pos →
      (FileCacheRaw.read st n).1 = none) ∧
    (∀ (st : FileCacheFile) (n : Nat), st.data.length ≤ st.pos →
      (FileCacheFile.read st n).1 = some []) := by
  refine ⟨?_, ?_, ?_, ?_, ?_⟩
  · intro st n m h
    have hnc := zst_read_none_state st n h
    simp [zst_read_exhausted st n hnc, zst_read_exhausted st m hnc]
  · intro st n m h
    simp [zst_read_exhausted _ m h]
  · intro st n m h
    by_cases he : st.data.length ≤ st.pos
    · simp [FileCacheRaw.read, he] at h ⊢
    · simp [FileCacheRaw.read, he] at h
  · intro st n h
    simp [FileCacheRaw.read, h]
  · intro st n h
    simp [FileCacheFile.read, List.drop_eq_nil_of_le h]

/-- Counterexample to claim C6 as stated: on a zero-byte uncompressed
plain-file source, read returns the distinguished empty result on the first
call and again on the second call, so the empty result is not returned
exactly once at end of data, and the exhaustion marker is never produced on
this path. -/
theorem reader_empty_result_not_once :
    (FileCacheFile.read ⟨[], 0⟩ 4).1 = some [] ∧
    (FileCacheFile.read (FileCacheFile.read ⟨[], 0⟩ 4).2 4).1 = some [] ∧
    (FileCacheFile.read ⟨[], 0⟩ 4).1 ≠ none := by
  decide

/-- Witness for reader_exhaustion_marker_stable at concrete exhausted
states of each reader kind. -/
theorem reader_exhaustion_marker_stable_witness :
    (FileCacheZst.read ⟨[], none⟩ 1).1 = none ∧
    (FileCacheZst.read (FileCacheZst.read ⟨[], none⟩ 1).2 10).1 = none ∧
    (FileCacheRaw.read ⟨[5], 1⟩ 1).1 = none ∧
    (FileCacheRaw.read (FileCacheRaw.read ⟨[5], 1⟩ 1).2 10).1 = none ∧
    (FileCacheFile.read ⟨[5], 1⟩ 3).1 = some [] :=
  ⟨rfl,
    reader_exhaustion_marker_stable.1 ⟨[], none⟩ 1 10 rfl,
    by decide,
    reader_exhaustion_marker_stable.2.2.1 ⟨[5], 1⟩ 1 10 (by decide),
    reader_exhaustion_marker_stable.2.2.2.2 ⟨[5], 1⟩ 3 (by decide)⟩
